import Mathlib

set_option maxHeartbeats 1000000

namespace SentryNative

/- Shallow embedding of the in-process crash-capture backend
   (`src/backends/sentry_backend_inproc.c`) and the crashpad integration
   backend (`src/backends/sentry_backend_crashpad.cpp`). -/

/-- Severity levels of `sentry_level_t`; only `fatal` is used here. -/
inductive Level where
  | debug
  | info
  | warning
  | error
  | fatal
deriving DecidableEq, Repr

/-- Session termination statuses (`sentry_session_status_t`). -/
inductive SessionStatus where
  | ok
  | exited
  | crashed
  | abnormal
deriving DecidableEq, Repr

/-- Structured values (`sentry_value_t`): JSON-like trees built through
`sentry_value_new_object`, `sentry_value_new_list`, scalar constructors and
`sentry_value_set_by_key` / `sentry_value_append`. -/
inductive SValue where
  | null
  | bool (b : Bool)
  | int32 (n : Int)
  | addr (a : Nat)
  | str (s : String)
  | level (l : Level)
  | list (xs : List SValue)
  | obj (fields : List (String × SValue))

/-- Field lookup in an object's field list (first match). -/
def getField : List (String × SValue) → String → Option SValue
  | [], _ => none
  | (k, v) :: rest, key => if k = key then some v else getField rest key

/-- `sentry_value_set_by_key` on the field list: replace the value in place
if the key exists, append the pair otherwise. -/
def setField : List (String × SValue) → String → SValue → List (String × SValue)
  | [], key, v => [(key, v)]
  | (k, w) :: rest, key, v =>
      if k = key then (key, v) :: rest else (k, w) :: setField rest key v

/-- `sentry_value_set_by_key` (no-op on non-objects, as in the C API). -/
def SValue.setByKey : SValue → String → SValue → SValue
  | .obj fields, key, v => .obj (setField fields key v)
  | o, _, _ => o

/-- `sentry_value_get_by_key`. -/
def SValue.getByKey : SValue → String → Option SValue
  | .obj fields, key => getField fields key
  | _, _ => none

/-- `struct signal_slot`: {signal/exception number, symbolic name, human
description}, produced by the `SIGNAL_DEF` macro. -/
structure SignalSlot where
  signum : Nat
  signame : String
  sigdesc : String
deriving DecidableEq, Repr

/-- `SIGNAL_COUNT` on the POSIX side. -/
def SIGNAL_COUNT : Nat := 6

/-- `SIGNAL_DEFINITIONS` (POSIX): the fixed table of intercepted signals,
with the Linux numeric values of the signal macros. -/
def SIGNAL_DEFINITIONS : List SignalSlot :=
  [⟨4, "SIGILL", "IllegalInstruction"⟩,
   ⟨5, "SIGTRAP", "Trap"⟩,
   ⟨6, "SIGABRT", "Abort"⟩,
   ⟨7, "SIGBUS", "BusError"⟩,
   ⟨8, "SIGFPE", "FloatingPointException"⟩,
   ⟨11, "SIGSEGV", "Segfault"⟩]

/-- `MAX_FRAMES`: the fixed maximum backtrace depth. -/
def MAX_FRAMES : Nat := 128

/-- The C cast `(int32_t)signum` (two's complement wrap of a machine word). -/
def toInt32 (n : Nat) : Int := (((n : Int) + 2 ^ 31) % 2 ^ 32) - 2 ^ 31

/-- Modelled from the spec: `sentry_value_new_event` is outside this file set;
per the spec an event starts with "a few default properties", kept abstract
here as the field list `defaults`. -/
def sentry_value_new_event (defaults : List (String × SValue)) : SValue :=
  .obj defaults

/-- `make_signal_event`: builds the crash event from the matched signal slot
and the machine context.  The backtrace capture primitive
`sentry_unwind_stack_from_ucontext` is outside this file set; modelled from
the spec: given a context and a maximum frame count it "produces addresses
oldest-to-newest", represented by the parameter `unwound` (its production for
this context), bounded by `MAX_FRAMES`.  The C code fills child objects after
inserting them into their parents through shared mutable references; this
pure version builds each child fully first, yielding the same final tree with
the same key order. -/
def make_signal_event (defaults : List (String × SValue))
    (sig_slot : Option SignalSlot) (unwound : List Nat) : SValue :=
  let event := sentry_value_new_event defaults
  let event := event.setByKey "level" (.level .fatal)
  let exc := (SValue.obj []).setByKey "type"
      (.str (match sig_slot with | some s => s.signame | none => "UNKNOWN_SIGNAL"))
  let exc := exc.setByKey "value"
      (.str (match sig_slot with | some s => s.sigdesc | none => "UnknownSignal"))
  let signal_meta : SValue :=
    match sig_slot with
    | some s =>
        ((SValue.obj []).setByKey "name" (.str s.signame)).setByKey "number"
          (.int32 (toInt32 s.signum))
    | none => SValue.obj []
  let mechanism_meta := (SValue.obj []).setByKey "signal" signal_meta
  let mechanism := (SValue.obj []).setByKey "type" (.str "signalhandler")
  let mechanism := mechanism.setByKey "synthetic" (.bool true)
  let mechanism := mechanism.setByKey "handled" (.bool false)
  let mechanism := mechanism.setByKey "meta" mechanism_meta
  let exc := exc.setByKey "mechanism" mechanism
  let backtrace := unwound.take MAX_FRAMES
  let frame_count := backtrace.length
  let frames := SValue.list ((List.range frame_count).map
      (fun i => (SValue.obj []).setByKey "instruction_addr"
        (.addr (backtrace.getD (frame_count - i - 1) 0))))
  let stacktrace := (SValue.obj []).setByKey "frames" frames
  let exc := exc.setByKey "stacktrace" stacktrace
  let exceptions := (SValue.obj []).setByKey "values" (.list [exc])
  event.setByKey "exception" exceptions

/-- The `exception.values` list of an event. -/
def eventExceptions (ev : SValue) : Option (List SValue) :=
  match ev.getByKey "exception" with
  | some e =>
      match e.getByKey "values" with
      | some (.list l) => some l
      | _ => none
  | none => none

/-- The single exception entry of a crash event. -/
def firstException (ev : SValue) : Option SValue :=
  (eventExceptions ev).bind (fun l => l.head?)

/-- The `instruction_addr` recorded in one stacktrace frame object. -/
def frameAddr (f : SValue) : Nat :=
  match f.getByKey "instruction_addr" with
  | some (.addr a) => a
  | _ => 0

/-- The list of instruction addresses of the event's stacktrace frames, in
frame-list order. -/
def eventInstructionAddrs (ev : SValue) : List Nat :=
  match (firstException ev).bind (fun e => e.getByKey "stacktrace") with
  | some st =>
      match st.getByKey "frames" with
      | some (.list fs) => fs.map frameAddr
      | _ => []
  | none => []

/- ## Signal handler chain (POSIX side of `sentry_backend_inproc.c`) -/

/-- A `struct sigaction` record as stored in `g_previous_handlers`.  In C the
handler is a union of `sa_handler` / `sa_sigaction` selected by the
`SA_SIGINFO` bit of `sa_flags`, so the meaningful states are: the default
disposition (`SIG_DFL`), the ignore disposition (`SIG_IGN`), a plain ANSI
one-argument handler, or an `SA_SIGINFO` three-argument handler; handler
functions are identified by an id. -/
inductive Disposition where
  | dfl
  | ign
  | handler1 (f : Nat)
  | handler3 (f : Nat)
deriving DecidableEq, Repr

/-- Observable actions of the capture pipeline and handler chaining, in the
order the code performs them. -/
inductive Action where
  | enablePageAllocator
  | enterSignalHandler
  | leaveSignalHandler
  | writeCrashMarker
  | enforceDiskTransport
  | endSession (status : SessionStatus)
  | captureEvent (ev : SValue)
  | dumpQueue
  | restore (signum : Nat)
  | raise (signum : Nat)
  | call3 (f : Nat) (signum : Nat) (info : Nat) (ctx : Nat)
  | call1 (f : Nat) (signum : Nat)

/-- `reset_signal_handlers`: re-install every recorded previous handler, one
`sigaction` call per slot of the fixed table. -/
def reset_signal_handlers : List Action :=
  SIGNAL_DEFINITIONS.map (fun slot => .restore slot.signum)

/-- The branch body of `invoke_signal_handler` for a matching slot, in the C
branch order: `SIG_DFL` re-raises the signal; an `SA_SIGINFO` handler is
called with signal, siginfo and context; `SIG_IGN` does nothing; a plain
handler is called with the signal number only. -/
def chainAction (h : Disposition) (signum info ctx : Nat) : List Action :=
  match h with
  | .dfl => [.raise signum]
  | .handler3 f => [.call3 f signum info ctx]
  | .ign => []
  | .handler1 f => [.call1 f signum]

/-- `invoke_signal_handler`: scan the fixed table; for every slot whose number
matches the faulting signal, dispatch on the recorded previous handler.
`prev` is the `g_previous_handlers` array, indexed in parallel with the
table. -/
def invoke_signal_handler (signum info ctx : Nat)
    (prev : Nat → Disposition) : List Action :=
  (List.range SIGNAL_COUNT).flatMap (fun i =>
    if (SIGNAL_DEFINITIONS.getD i ⟨0, "", ""⟩).signum = signum then
      chainAction (prev i) signum info ctx
    else [])

/-- The slot lookup loop at the head of `handle_ucontext`: scans the whole
table without breaking, so the last matching slot wins. -/
def findSlotIn (tbl : List SignalSlot) (signum : Nat) : Option SignalSlot :=
  tbl.foldl (fun acc slot => if slot.signum = signum then some slot else acc)
    none

/-- Slot lookup against the POSIX table. -/
def findSlot (signum : Nat) : Option SignalSlot :=
  findSlotIn SIGNAL_DEFINITIONS signum

/-- The platform-independent middle of `handle_ucontext`: write the crash
marker, swap the transport for the disk fallback (the previously active
transport, read just before the swap, is retained), end the current session
as crashed, build and capture the crash event, then — if a previous transport
existed — dump its queued envelopes to the run's disk queue. -/
def handle_ucontext_core (defaults : List (String × SValue))
    (sig_slot : Option SignalSlot) (transportPresent : Bool)
    (unwound : List Nat) : List Action :=
  [.writeCrashMarker, .enforceDiskTransport, .endSession .crashed,
   .captureEvent (make_signal_event defaults sig_slot unwound)]
  ++ (if transportPresent then [.dumpQueue] else [])

/-- `handle_ucontext` on POSIX: engage the signal-safe page allocator and the
reentrancy guard, run the capture pipeline core, then reset the signal
handlers, leave the guard, and chain to the previous handler of the faulting
signal. -/
def handle_ucontext (signum info ctx : Nat)
    (prev : Nat → Disposition)
    (defaults : List (String × SValue)) (transportPresent : Bool)
    (unwound : List Nat) : List Action :=
  [.enablePageAllocator, .enterSignalHandler]
  ++ handle_ucontext_core defaults (findSlot signum) transportPresent unwound
  ++ reset_signal_handlers
  ++ [.leaveSignalHandler]
  ++ invoke_signal_handler signum info ctx prev

/-- Selects the durable pipeline steps named by the ordering guarantee. -/
def isKeyStep : Action → Bool
  | .writeCrashMarker => true
  | .enforceDiskTransport => true
  | .endSession _ => true
  | .captureEvent _ => true
  | .dumpQueue => true
  | _ => false

/-- Selects the handler-restoration and chaining actions. -/
def isChainStep : Action → Bool
  | .restore _ => true
  | .raise _ => true
  | .call3 _ _ _ _ => true
  | .call1 _ _ => true
  | _ => false

/-- Selects the single event-capture action. -/
def isCapture : Action → Bool
  | .captureEvent _ => true
  | _ => false

/- ## Breadcrumb ring (`sentry_backend_crashpad.cpp`) -/

/-- The parts of `crashpad_state_t` the breadcrumb ring touches: the counter
`num_breadcrumbs` and the two rotating breadcrumb files.  `hasFiles` is
whether startup initialised the breadcrumb file paths (they stay `NULL` when
startup never ran or bailed early); file contents are the lists of serialized
records each file holds, a record being identified by a number. -/
structure BcState where
  num_breadcrumbs : Nat
  hasFiles : Bool
  fileA : List Nat
  fileB : List Nat
deriving DecidableEq, Repr

/-- Result of one `add_breadcrumb` call: the new state, and whether
`sentry_value_decref(breadcrumb)` was reached, i.e. whether the caller's
reference was consumed. -/
structure BcOutcome where
  state : BcState
  consumed : Bool
deriving DecidableEq, Repr

/-- `sentry__crashpad_backend_add_breadcrumb`, parametric in
`SENTRY_BREADCRUMBS_MAX` (defined outside this file set) and in the outcomes
of the external calls: `mpack` is the result of `sentry_value_to_msgpack`
(`none` = serialization failure) and `writeOk` whether the file write/append
succeeded (a failed write leaves the file unchanged and is only logged).
Mirrors the C control flow: compute `first_breadcrumb` and the target file
from the counter, increment the counter, return early if the file path is
`NULL` (before the decref), serialize and decref, return on serialization
failure, then overwrite or append. -/
def sentry__crashpad_backend_add_breadcrumb (MAX : Nat) (s : BcState)
    (mpack : Option Nat) (writeOk : Bool) : BcOutcome :=
  let first_breadcrumb := s.num_breadcrumbs % MAX = 0
  let targetA := s.num_breadcrumbs % (MAX * 2) < MAX
  let s1 : BcState := { s with num_breadcrumbs := s.num_breadcrumbs + 1 }
  if !s.hasFiles then
    { state := s1, consumed := false }
  else
    match mpack with
    | none => { state := s1, consumed := true }
    | some r =>
        if !writeOk then { state := s1, consumed := true }
        else if targetA then
          { state :=
              { s1 with
                fileA := if first_breadcrumb then [r] else s1.fileA ++ [r] },
            consumed := true }
        else
          { state :=
              { s1 with
                fileB := if first_breadcrumb then [r] else s1.fileB ++ [r] },
            consumed := true }

/-- A sequence of `add_breadcrumb` calls that all serialize and write
successfully, consuming the records `rs` in order. -/
def runBreadcrumbs (MAX : Nat) (s : BcState) (rs : List Nat) : BcState :=
  rs.foldl
    (fun st r => (sentry__crashpad_backend_add_breadcrumb MAX st (some r) true).state)
    s

/-- A sequence of `add_breadcrumb` calls with arbitrary per-call serialization
and write outcomes. -/
def runBreadcrumbsOutcomes (MAX : Nat) (s : BcState)
    (calls : List (Option Nat × Bool)) : BcState :=
  calls.foldl
    (fun st c => (sentry__crashpad_backend_add_breadcrumb MAX st c.1 c.2).state)
    s

/-- The state of a freshly started backend: counter zero, breadcrumb files
touched (created empty) by startup. -/
def freshBcState : BcState :=
  { num_breadcrumbs := 0, hasFiles := true, fileA := [], fileB := [] }

/- ## Windows structured-exception side -/

/-- `SIGNAL_DEFINITIONS` on Windows: the fixed table of intercepted exception
codes with their numeric `EXCEPTION_*` values. -/
def WIN_SIGNAL_DEFINITIONS : List SignalSlot :=
  [⟨0xC0000005, "EXCEPTION_ACCESS_VIOLATION", "AccessViolation"⟩,
   ⟨0xC000008C, "EXCEPTION_ARRAY_BOUNDS_EXCEEDED", "ArrayBoundsExceeded"⟩,
   ⟨0x80000003, "EXCEPTION_BREAKPOINT", "BreakPoint"⟩,
   ⟨0x80000002, "EXCEPTION_DATATYPE_MISALIGNMENT", "DatatypeMisalignment"⟩,
   ⟨0xC000008D, "EXCEPTION_FLT_DENORMAL_OPERAND", "FloatDenormalOperand"⟩,
   ⟨0xC000008E, "EXCEPTION_FLT_DIVIDE_BY_ZERO", "FloatDivideByZero"⟩,
   ⟨0xC000008F, "EXCEPTION_FLT_INEXACT_RESULT", "FloatInexactResult"⟩,
   ⟨0xC0000090, "EXCEPTION_FLT_INVALID_OPERATION", "FloatInvalidOperation"⟩,
   ⟨0xC0000091, "EXCEPTION_FLT_OVERFLOW", "FloatOverflow"⟩,
   ⟨0xC0000092, "EXCEPTION_FLT_STACK_CHECK", "FloatStackCheck"⟩,
   ⟨0xC0000093, "EXCEPTION_FLT_UNDERFLOW", "FloatUnderflow"⟩,
   ⟨0xC000001D, "EXCEPTION_ILLEGAL_INSTRUCTION", "IllegalInstruction"⟩,
   ⟨0xC0000006, "EXCEPTION_IN_PAGE_ERROR", "InPageError"⟩,
   ⟨0xC0000094, "EXCEPTION_INT_DIVIDE_BY_ZERO", "IntegerDivideByZero"⟩,
   ⟨0xC0000095, "EXCEPTION_INT_OVERFLOW", "IntegerOverflow"⟩,
   ⟨0xC0000026, "EXCEPTION_INVALID_DISPOSITION", "InvalidDisposition"⟩,
   ⟨0xC0000025, "EXCEPTION_NONCONTINUABLE_EXCEPTION", "NonContinuableException"⟩,
   ⟨0xC0000096, "EXCEPTION_PRIV_INSTRUCTION", "PrivilgedInstruction"⟩,
   ⟨0x80000004, "EXCEPTION_SINGLE_STEP", "SingleStep"⟩,
   ⟨0xC00000FD, "EXCEPTION_STACK_OVERFLOW", "StackOverflow"⟩]

/-- `EXCEPTION_BREAKPOINT`. -/
def EXCEPTION_BREAKPOINT : Nat := 0x80000003

/-- `EXCEPTION_SINGLE_STEP`. -/
def EXCEPTION_SINGLE_STEP : Nat := 0x80000004

/-- `EXCEPTION_CONTINUE_SEARCH` (the `LONG` value 0). -/
def EXCEPTION_CONTINUE_SEARCH : Int := 0

/-- `handle_ucontext` on Windows: only the platform-independent pipeline core
runs (no allocator/guard engagement and no handler re-invocation). -/
def handle_ucontext_win (code : Nat) (defaults : List (String × SValue))
    (transportPresent : Bool) (unwound : List Nat) : List Action :=
  handle_ucontext_core defaults (findSlotIn WIN_SIGNAL_DEFINITIONS code)
    transportPresent unwound

/-- `handle_exception`: the installed top-level exception dispatcher.  For
the two debugger-reserved codes it returns `EXCEPTION_CONTINUE_SEARCH`
without running the capture pipeline; otherwise it runs the pipeline and
still returns `EXCEPTION_CONTINUE_SEARCH`.  Returns the pipeline trace and
the filter's return value. -/
def handle_exception (code : Nat) (defaults : List (String × SValue))
    (transportPresent : Bool) (unwound : List Nat) : List Action × Int :=
  if code = EXCEPTION_BREAKPOINT ∨ code = EXCEPTION_SINGLE_STEP then
    ([], EXCEPTION_CONTINUE_SEARCH)
  else
    (handle_ucontext_win code defaults transportPresent unwound,
     EXCEPTION_CONTINUE_SEARCH)

/- ## Startup/shutdown handler bookkeeping -/

/-- The process-wide top-level exception filter slot on Windows.  `null` is
no filter, `sentryFilter` is this backend's dispatcher (`handle_exception`
in the inproc backend, `sentry__crashpad_handler` in the crashpad backend),
`ext f` any third-party filter. -/
inductive TopFilter where
  | null
  | sentryFilter
  | ext (f : Nat)
deriving DecidableEq, Repr

/-- `startup` on Windows (`SetUnhandledExceptionFilter(&handle_exception)`):
records the previous filter in `g_previous_handler` and installs the
backend's dispatcher.  Returns `(g_previous_handler, installed filter)`. -/
def startup_win (installed : TopFilter) : TopFilter × TopFilter :=
  (installed, .sentryFilter)

/-- The Windows `shutdown` of both backends (`shutdown_inproc_backend` and
`sentry__crashpad_backend_shutdown` share this logic verbatim): exchange the
installed filter with `g_previous_handler`; if the filter that was installed
was no longer this backend's dispatcher, put it back.  Returns the finally
installed filter. -/
def shutdown_win (gPrevious installed : TopFilter) : TopFilter :=
  let current_handler := installed
  let nowInstalled := gPrevious
  if current_handler ≠ .sentryFilter then current_handler else nowInstalled

/-- `startup_inproc_backend` (POSIX) restricted to its handler-table effect:
record the currently installed handler of every slot into
`g_previous_handlers`, then install the backend's `g_sigaction` (an
`SA_SIGINFO` handler running `handle_signal`, given id 0) on every slot.
`os` is the OS handler table for the six slots; returns
`(g_previous_handlers, new OS table)`. -/
def startup_inproc_posix (os : Nat → Disposition) :
    (Nat → Disposition) × (Nat → Disposition) :=
  (os, fun _ => .handler3 0)

/-- `shutdown_inproc_backend` (POSIX): disables and frees the alternate
signal stack only; the OS handler table is left untouched. -/
def shutdown_inproc_posix (os : Nat → Disposition) :
    Nat → Disposition :=
  os

/-- The mechanism object of the single exception entry. -/
def mechanismOf (ev : SValue) : Option SValue :=
  (firstException ev).bind (fun e => e.getByKey "mechanism")

/-- The signal metadata object inside the mechanism meta. -/
def signalMetaOf (ev : SValue) : Option SValue :=
  ((mechanismOf ev).bind (fun m => m.getByKey "meta")).bind
    (fun m => m.getByKey "signal")

/- ## Lemmas about field lookup and update -/

theorem getField_setField_same (l : List (String × SValue)) (k : String)
    (v : SValue) : getField (setField l k v) k = some v := by
  induction l with
  | nil => simp [setField, getField]
  | cons p rest ih =>
      obtain ⟨k', w⟩ := p
      by_cases h : k' = k
      · simp [setField, getField, h]
      · simp [setField, getField, h, ih]

theorem getField_setField_ne (l : List (String × SValue)) (k key : String)
    (v : SValue) (h : key ≠ k) :
    getField (setField l k v) key = getField l key := by
  have hk : k ≠ key := Ne.symm h
  induction l with
  | nil => simp [setField, getField, hk]
  | cons p rest ih =>
      obtain ⟨k', w⟩ := p
      by_cases h1 : k' = k
      · subst h1
        simp [setField, getField, hk]
      · simp [setField, getField, h1, ih]

/-- The crash event as one explicit tree: the exception entry. -/
def excOf (sig_slot : Option SignalSlot) (unwound : List Nat) : SValue :=
  .obj
    [("type", .str (match sig_slot with
        | some s => s.signame
        | none => "UNKNOWN_SIGNAL")),
     ("value", .str (match sig_slot with
        | some s => s.sigdesc
        | none => "UnknownSignal")),
     ("mechanism", .obj
        [("type", .str "signalhandler"),
         ("synthetic", .bool true),
         ("handled", .bool false),
         ("meta", .obj
            [("signal", match sig_slot with
               | some s => .obj [("name", .str s.signame),
                                 ("number", .int32 (toInt32 s.signum))]
               | none => SValue.obj [])])]),
     ("stacktrace", .obj
        [("frames", .list ((List.range (unwound.take MAX_FRAMES).length).map
            (fun i => .obj [("instruction_addr", .addr
              ((unwound.take MAX_FRAMES).getD
                ((unwound.take MAX_FRAMES).length - i - 1) 0))])))])]

theorem make_signal_event_eq (defaults : List (String × SValue))
    (sig_slot : Option SignalSlot) (unwound : List Nat) :
    make_signal_event defaults sig_slot unwound
      = .obj (setField (setField defaults "level" (.level .fatal)) "exception"
          (.obj [("values", .list [excOf sig_slot unwound])])) := by
  rfl

theorem getByKey_level_make (defaults : List (String × SValue))
    (sig_slot : Option SignalSlot) (unwound : List Nat) :
    (make_signal_event defaults sig_slot unwound).getByKey "level"
      = some (.level .fatal) := by
  rw [make_signal_event_eq]
  show getField _ _ = _
  rw [getField_setField_ne _ _ _ _ (by decide), getField_setField_same]

theorem eventExceptions_make (defaults : List (String × SValue))
    (sig_slot : Option SignalSlot) (unwound : List Nat) :
    eventExceptions (make_signal_event defaults sig_slot unwound)
      = some [excOf sig_slot unwound] := by
  rw [make_signal_event_eq]
  show (match getField _ "exception" with
    | some e => match e.getByKey "values" with
      | some (.list l) => some l
      | _ => none
    | none => none) = _
  rw [getField_setField_same]
  rfl

theorem firstException_make (defaults : List (String × SValue))
    (sig_slot : Option SignalSlot) (unwound : List Nat) :
    firstException (make_signal_event defaults sig_slot unwound)
      = some (excOf sig_slot unwound) := by
  rw [firstException, eventExceptions_make]
  rfl

theorem addrs_rev (l : List Nat) :
    (List.range l.length).map (fun i => l.getD (l.length - i - 1) 0)
      = l.reverse := by
  apply List.ext_getElem
  · simp
  · intro i h1 h2
    simp only [List.getElem_map, List.getElem_range, List.getElem_reverse]
    rw [List.getD_eq_getElem?_getD, List.getElem?_eq_getElem (by simp at h1 ⊢; omega)]
    simp only [Option.getD_some]
    congr 1
    simp at h1
    omega

theorem eventInstructionAddrs_make (defaults : List (String × SValue))
    (sig_slot : Option SignalSlot) (unwound : List Nat) :
    eventInstructionAddrs (make_signal_event defaults sig_slot unwound)
      = (unwound.take MAX_FRAMES).reverse := by
  rw [eventInstructionAddrs, firstException_make]
  show (match (excOf sig_slot unwound).getByKey "stacktrace" with
    | some st => match st.getByKey "frames" with
      | some (.list fs) => fs.map frameAddr
      | _ => []
    | none => []) = _
  show ((List.range (unwound.take MAX_FRAMES).length).map
      (fun i => SValue.obj [("instruction_addr", .addr
        ((unwound.take MAX_FRAMES).getD
          ((unwound.take MAX_FRAMES).length - i - 1) 0))])).map frameAddr = _
  rw [List.map_map]
  show (List.range (unwound.take MAX_FRAMES).length).map
      (fun i => (unwound.take MAX_FRAMES).getD
        ((unwound.take MAX_FRAMES).length - i - 1) 0) = _
  exact addrs_rev _

/-- C4: for a fault matching a slot of the fixed table, the built crash event
has level fatal and exactly one exception entry: its type is the slot
symbolic name, its value the slot description, and its mechanism object has
type "signalhandler", synthetic = true, handled = false, and signal metadata
carrying the slot name and number.  `make_signal_event` is a pure function of
the slot and the unwound context, so the produced fields are identical across
constructions from the same inputs. -/
theorem claim_C4_crash_event_fields (defaults : List (String × SValue))
    (slot : SignalSlot) (unwound : List Nat) :
    (make_signal_event defaults (some slot) unwound).getByKey "level"
      = some (.level .fatal) ∧
    (eventExceptions (make_signal_event defaults (some slot) unwound)).map
        List.length = some 1 ∧
    (firstException (make_signal_event defaults (some slot) unwound)).bind
        (fun e => e.getByKey "type") = some (.str slot.signame) ∧
    (firstException (make_signal_event defaults (some slot) unwound)).bind
        (fun e => e.getByKey "value") = some (.str slot.sigdesc) ∧
    mechanismOf (make_signal_event defaults (some slot) unwound)
      = some (.obj
          [("type", .str "signalhandler"),
           ("synthetic", .bool true),
           ("handled", .bool false),
           ("meta", .obj
              [("signal", .obj
                 [("name", .str slot.signame),
                  ("number", .int32 (toInt32 slot.signum))])])]) := by
  refine ⟨getByKey_level_make _ _ _, ?_, ?_, ?_, ?_⟩
  · rw [eventExceptions_make]
    rfl
  · rw [firstException_make]
    rfl
  · rw [firstException_make]
    rfl
  · rw [mechanismOf, firstException_make]
    rfl

/-- C5 counterexample: with the backtrace primitive reporting the addresses
1, 2 (oldest-to-newest, per the spec description of the primitive), the
frame list of the built event carries them as 2, 1 — not in the same order
the primitive produced them. -/
theorem claim_C5_counterexample :
    eventInstructionAddrs
        (make_signal_event [] (some ⟨11, "SIGSEGV", "Segfault"⟩) [1, 2])
      ≠ [1, 2] := by
  rw [eventInstructionAddrs_make]
  decide

/-- C5 (amended): the frame list has length equal to the number of frames
the backtrace primitive reported (the request being bounded by the fixed
maximum of 128 frames), and the instruction addresses appear in the frame
list in the reverse of the order in which the primitive produced them. -/
theorem claim_C5_stacktrace_frames (defaults : List (String × SValue))
    (sig_slot : Option SignalSlot) (unwound : List Nat) :
    eventInstructionAddrs (make_signal_event defaults sig_slot unwound)
      = (unwound.take MAX_FRAMES).reverse ∧
    (eventInstructionAddrs (make_signal_event defaults sig_slot unwound)).length
      = (unwound.take MAX_FRAMES).length := by
  refine ⟨eventInstructionAddrs_make _ _ _, ?_⟩
  rw [eventInstructionAddrs_make, List.length_reverse]

/- ## Pipeline trace lemmas -/

/-- The signal number of the i-th slot of the POSIX table. -/
def slotSignum (i : Nat) : Nat := (SIGNAL_DEFINITIONS.getD i ⟨0, "", ""⟩).signum

theorem invoke_no_key_steps (signum info ctx : Nat) (prev : Nat → Disposition) :
    ∀ a ∈ invoke_signal_handler signum info ctx prev, isKeyStep a = false := by
  intro a ha
  rw [invoke_signal_handler, List.mem_flatMap] at ha
  obtain ⟨i, -, hmem⟩ := ha
  by_cases hc : (SIGNAL_DEFINITIONS.getD i ⟨0, "", ""⟩).signum = signum
  · rw [if_pos hc] at hmem
    cases h : prev i <;> rw [h] at hmem <;> simp [chainAction] at hmem <;>
      subst hmem <;> rfl
  · rw [if_neg hc] at hmem
    simp at hmem

theorem invoke_filter_key (signum info ctx : Nat) (prev : Nat → Disposition) :
    (invoke_signal_handler signum info ctx prev).filter isKeyStep = [] := by
  rw [List.filter_eq_nil_iff]
  intro a ha
  rw [invoke_no_key_steps signum info ctx prev a ha]
  simp

theorem filter_keySteps_handle_ucontext (signum info ctx : Nat)
    (prev : Nat → Disposition) (defaults : List (String × SValue))
    (tp : Bool) (unwound : List Nat) :
    (handle_ucontext signum info ctx prev defaults tp unwound).filter isKeyStep
      = [.writeCrashMarker, .enforceDiskTransport, .endSession .crashed,
         .captureEvent (make_signal_event defaults (findSlot signum) unwound)]
        ++ (if tp then [.dumpQueue] else []) := by
  cases tp <;>
    simp [handle_ucontext, handle_ucontext_core, List.filter_append,
      invoke_filter_key, reset_signal_handlers, SIGNAL_DEFINITIONS,
      List.filter, isKeyStep]

theorem invoke_chain_steps (signum info ctx : Nat) (prev : Nat → Disposition) :
    ∀ a ∈ invoke_signal_handler signum info ctx prev, isChainStep a = true := by
  intro a ha
  rw [invoke_signal_handler, List.mem_flatMap] at ha
  obtain ⟨i, -, hmem⟩ := ha
  by_cases hc : (SIGNAL_DEFINITIONS.getD i ⟨0, "", ""⟩).signum = signum
  · rw [if_pos hc] at hmem
    cases h : prev i <;> rw [h] at hmem <;> simp [chainAction] at hmem <;>
      subst hmem <;> rfl
  · rw [if_neg hc] at hmem
    simp at hmem

theorem invoke_filter_chain (signum info ctx : Nat) (prev : Nat → Disposition) :
    (invoke_signal_handler signum info ctx prev).filter isChainStep
      = invoke_signal_handler signum info ctx prev := by
  rw [List.filter_eq_self]
  exact invoke_chain_steps signum info ctx prev

theorem filter_chain_handle_ucontext (signum info ctx : Nat)
    (prev : Nat → Disposition) (defaults : List (String × SValue))
    (tp : Bool) (unwound : List Nat) :
    (handle_ucontext signum info ctx prev defaults tp unwound).filter isChainStep
      = reset_signal_handlers ++ invoke_signal_handler signum info ctx prev := by
  cases tp <;>
    simp [handle_ucontext, handle_ucontext_core, List.filter_append,
      invoke_filter_chain, reset_signal_handlers, SIGNAL_DEFINITIONS,
      List.filter, isChainStep]

theorem invoke_eq_chain (i : Nat) (hi : i < SIGNAL_COUNT) (info ctx : Nat)
    (prev : Nat → Disposition) :
    invoke_signal_handler (slotSignum i) info ctx prev
      = chainAction (prev i) (slotSignum i) info ctx := by
  rw [SIGNAL_COUNT] at hi
  interval_cases i <;>
    simp [invoke_signal_handler, slotSignum, SIGNAL_DEFINITIONS, SIGNAL_COUNT,
      List.range_succ, List.getD_cons_zero, List.getD_cons_succ]

theorem filter_capture_handle_ucontext (signum info ctx : Nat)
    (prev : Nat → Disposition) (defaults : List (String × SValue))
    (tp : Bool) (unwound : List Nat) :
    (handle_ucontext signum info ctx prev defaults tp unwound).filter isCapture
      = [.captureEvent (make_signal_event defaults (findSlot signum) unwound)] := by
  have hinv : (invoke_signal_handler signum info ctx prev).filter isCapture
      = [] := by
    rw [List.filter_eq_nil_iff]
    intro a ha
    have h2 := invoke_no_key_steps signum info ctx prev a ha
    cases a <;> simp_all [isKeyStep, isCapture]
  cases tp <;>
    simp [handle_ucontext, handle_ucontext_core, List.filter_append, hinv,
      reset_signal_handlers, SIGNAL_DEFINITIONS, List.filter, isCapture]

/-- C1: for every fault on a signal of the fixed POSIX table, the actions the
pipeline performs on the OS handler tables after capture are exactly: restore
all six original handlers, then chain to the recorded previous handler of the
faulting signal — re-raising the same signal for the default disposition,
doing nothing further for the ignore disposition, and otherwise calling the
recorded handler function with the original signal number (and the original
siginfo and context when the handler takes them).  A fatal fault is never
silently swallowed: only an originally-ignored signal yields no further
action, matching its pre-interception behavior. -/
theorem claim_C1_handler_rechaining (i info ctx : Nat) (hi : i < SIGNAL_COUNT)
    (prev : Nat → Disposition) (defaults : List (String × SValue))
    (tp : Bool) (unwound : List Nat) :
    (handle_ucontext (slotSignum i) info ctx prev defaults tp unwound).filter
        isChainStep
      = reset_signal_handlers
        ++ chainAction (prev i) (slotSignum i) info ctx ∧
    (prev i = .dfl →
      chainAction (prev i) (slotSignum i) info ctx = [.raise (slotSignum i)]) ∧
    (prev i = .ign →
      chainAction (prev i) (slotSignum i) info ctx = []) ∧
    (∀ f, prev i = .handler3 f →
      chainAction (prev i) (slotSignum i) info ctx
        = [.call3 f (slotSignum i) info ctx]) ∧
    (∀ f, prev i = .handler1 f →
      chainAction (prev i) (slotSignum i) info ctx
        = [.call1 f (slotSignum i)]) := by
  refine ⟨?_, ?_, ?_, ?_, ?_⟩
  · rw [filter_chain_handle_ucontext, invoke_eq_chain i hi]
  · intro h
    rw [h, chainAction]
  · intro h
    rw [h, chainAction]
  · intro f h
    rw [h, chainAction]
  · intro f h
    rw [h, chainAction]

theorem claim_C1_handler_rechaining_witness :
    5 < SIGNAL_COUNT ∧
    ((fun _ : Nat => Disposition.dfl) 5 = Disposition.dfl ∧
     chainAction ((fun _ : Nat => Disposition.dfl) 5) (slotSignum 5) 7 9
       = [.raise (slotSignum 5)]) :=
  ⟨by decide,
   ⟨rfl, (claim_C1_handler_rechaining 5 7 9 (by decide)
      (fun _ => Disposition.dfl) [] true []).2.1 rfl⟩⟩

/-- C2: in every invocation of the capture pipeline on a fault, the durable
steps occur in exactly this order: crash-marker write, then transport swap to
the disk fallback, then session transition to crashed, then the crash event
is built fresh and handed to the normal capture path, then — exactly when a
previously active transport existed — that transport dumps its queued
envelopes to the disk queue of the run; and the event is handed to the
capture path exactly once. -/
theorem claim_C2_pipeline_ordering (signum info ctx : Nat)
    (prev : Nat → Disposition) (defaults : List (String × SValue))
    (tp : Bool) (unwound : List Nat) :
    (handle_ucontext signum info ctx prev defaults tp unwound).filter isKeyStep
      = [.writeCrashMarker, .enforceDiskTransport, .endSession .crashed,
         .captureEvent (make_signal_event defaults (findSlot signum) unwound)]
        ++ (if tp then [.dumpQueue] else []) ∧
    (handle_ucontext signum info ctx prev defaults tp unwound).filter isCapture
      = [.captureEvent (make_signal_event defaults (findSlot signum) unwound)] :=
  ⟨filter_keySteps_handle_ucontext signum info ctx prev defaults tp unwound,
   filter_capture_handle_ucontext signum info ctx prev defaults tp unwound⟩

/-- C10: a fault whose signal number matches no slot of the fixed table still
runs the whole capture pipeline: the durable steps all occur in order and an
event is captured exactly once, whose exception type is "UNKNOWN_SIGNAL",
whose value is "UnknownSignal", and whose mechanism signal metadata object is
empty (no name or number keys). -/
theorem claim_C10_unknown_signal (signum info ctx : Nat)
    (prev : Nat → Disposition) (defaults : List (String × SValue))
    (tp : Bool) (unwound : List Nat) (h : findSlot signum = none) :
    (handle_ucontext signum info ctx prev defaults tp unwound).filter isKeyStep
      = [.writeCrashMarker, .enforceDiskTransport, .endSession .crashed,
         .captureEvent (make_signal_event defaults none unwound)]
        ++ (if tp then [.dumpQueue] else []) ∧
    (handle_ucontext signum info ctx prev defaults tp unwound).filter isCapture
      = [.captureEvent (make_signal_event defaults none unwound)] ∧
    (firstException (make_signal_event defaults none unwound)).bind
        (fun e => e.getByKey "type") = some (.str "UNKNOWN_SIGNAL") ∧
    (firstException (make_signal_event defaults none unwound)).bind
        (fun e => e.getByKey "value") = some (.str "UnknownSignal") ∧
    signalMetaOf (make_signal_event defaults none unwound)
      = some (SValue.obj []) := by
  refine ⟨?_, ?_, ?_, ?_, ?_⟩
  · rw [filter_keySteps_handle_ucontext, h]
  · rw [filter_capture_handle_ucontext, h]
  · rw [firstException_make]
    rfl
  · rw [firstException_make]
    rfl
  · rw [signalMetaOf, mechanismOf, firstException_make]
    rfl

theorem claim_C10_unknown_signal_witness :
    findSlot 999 = none ∧
    (firstException (make_signal_event [] none [])).bind
        (fun e => e.getByKey "type") = some (.str "UNKNOWN_SIGNAL") :=
  ⟨rfl,
   (claim_C10_unknown_signal 999 0 0 (fun _ => Disposition.dfl) [] false []
      rfl).2.2.1⟩

/-- C9: on the structural-exception platform the installed dispatcher returns
EXCEPTION_CONTINUE_SEARCH for every incoming exception, and for the two
debugger-reserved codes (breakpoint and single-step) it returns it without
invoking the capture pipeline at all, even though both codes appear in the
fixed signal table. -/
theorem claim_C9_continue_search (code : Nat)
    (defaults : List (String × SValue)) (tp : Bool) (unwound : List Nat) :
    (handle_exception code defaults tp unwound).2 = EXCEPTION_CONTINUE_SEARCH ∧
    (code = EXCEPTION_BREAKPOINT ∨ code = EXCEPTION_SINGLE_STEP →
      (handle_exception code defaults tp unwound).1 = []) ∧
    EXCEPTION_BREAKPOINT ∈ WIN_SIGNAL_DEFINITIONS.map SignalSlot.signum ∧
    EXCEPTION_SINGLE_STEP ∈ WIN_SIGNAL_DEFINITIONS.map SignalSlot.signum := by
  refine ⟨?_, ?_, by decide, by decide⟩
  · rw [handle_exception]
    split <;> rfl
  · intro h
    rw [handle_exception, if_pos h]

theorem claim_C9_continue_search_witness :
    (EXCEPTION_BREAKPOINT = EXCEPTION_BREAKPOINT ∨
       EXCEPTION_BREAKPOINT = EXCEPTION_SINGLE_STEP) ∧
    (handle_exception EXCEPTION_BREAKPOINT [] false []).1 = [] :=
  ⟨Or.inl rfl,
   (claim_C9_continue_search EXCEPTION_BREAKPOINT [] false []).2.1 (Or.inl rfl)⟩

/- ## Breadcrumb ring lemmas -/

theorem add_breadcrumb_success (MAX : Nat) (s : BcState) (r : Nat)
    (h : s.hasFiles = true) :
    (sentry__crashpad_backend_add_breadcrumb MAX s (some r) true).state
      = if s.num_breadcrumbs % (MAX * 2) < MAX then
          { s with num_breadcrumbs := s.num_breadcrumbs + 1,
                   fileA := if s.num_breadcrumbs % MAX = 0 then [r]
                            else s.fileA ++ [r] }
        else
          { s with num_breadcrumbs := s.num_breadcrumbs + 1,
                   fileB := if s.num_breadcrumbs % MAX = 0 then [r]
                            else s.fileB ++ [r] } := by
  rw [sentry__crashpad_backend_add_breadcrumb]
  simp only [h, Bool.not_true, Bool.false_eq_true, if_false]
  split <;> rfl

theorem add_breadcrumb_num (MAX : Nat) (s : BcState) (mpack : Option Nat)
    (writeOk : Bool) :
    (sentry__crashpad_backend_add_breadcrumb MAX s mpack
        writeOk).state.num_breadcrumbs = s.num_breadcrumbs + 1 := by
  cases hf : s.hasFiles <;> cases mpack <;> cases writeOk <;>
    simp [sentry__crashpad_backend_add_breadcrumb, hf] <;> split <;> rfl

theorem runBreadcrumbs_characterization (MAX : Nat) (rs : List Nat) :
    ∀ n, n ≤ 2 * MAX → n ≤ rs.length →
    runBreadcrumbs MAX freshBcState (rs.take n)
      = { num_breadcrumbs := n, hasFiles := true,
          fileA := rs.take (min n MAX),
          fileB := (rs.drop MAX).take (n - MAX) } := by
  intro n
  induction n with
  | zero =>
      intro _ _
      simp [runBreadcrumbs, freshBcState]
  | succ n ih =>
      intro h2M hlen
      have hprev := ih (by omega) (by omega)
      have hn : n < rs.length := by omega
      have htake : rs.take (n + 1) = rs.take n ++ [rs.getD n 0] := by
        rw [List.take_succ, List.getElem?_eq_getElem hn]
        rw [List.getD_eq_getElem?_getD, List.getElem?_eq_getElem hn]
        rfl
      have hsplit : runBreadcrumbs MAX freshBcState (rs.take (n + 1))
          = (sentry__crashpad_backend_add_breadcrumb MAX
              (runBreadcrumbs MAX freshBcState (rs.take n))
              (some (rs.getD n 0)) true).state := by
        rw [htake, runBreadcrumbs, List.foldl_append]
        rfl
      rw [hsplit, hprev]
      rw [add_breadcrumb_success MAX _ _ rfl]
      by_cases hcase : n < MAX
      · have h1 : n % (MAX * 2) = n := Nat.mod_eq_of_lt (by omega)
        have h2 : n % MAX = n := Nat.mod_eq_of_lt hcase
        simp only [h1, h2]
        rw [if_pos hcase]
        have hminA : min (n + 1) MAX = n + 1 := by omega
        have hminA2 : min n MAX = n := by omega
        have hsub : n + 1 - MAX = 0 := by omega
        have hsub2 : n - MAX = 0 := by omega
        simp only [hminA, hminA2, hsub, hsub2]
        by_cases h0 : n = 0
        · subst h0
          simp [htake]
        · rw [if_neg h0, ← htake]
      · have hlt2 : n < MAX * 2 := by omega
        have h1 : n % (MAX * 2) = n := Nat.mod_eq_of_lt hlt2
        have h2 : n % MAX = n - MAX := by
          rw [Nat.mod_eq_sub_mod (by omega)]
          exact Nat.mod_eq_of_lt (by omega)
        simp only [h1, h2]
        rw [if_neg hcase]
        have hminA : min (n + 1) MAX = MAX := by omega
        have hminA2 : min n MAX = MAX := by omega
        have hgetd : (rs.drop MAX).getD (n - MAX) 0 = rs.getD n 0 := by
          rw [List.getD_eq_getElem?_getD, List.getD_eq_getElem?_getD,
            List.getElem?_drop]
          congr 2
          omega
        have hdtake : (rs.drop MAX).take (n + 1 - MAX)
            = (rs.drop MAX).take (n - MAX) ++ [rs.getD n 0] := by
          have : n + 1 - MAX = (n - MAX) + 1 := by omega
          rw [this, List.take_succ, List.getElem?_eq_getElem
            (show n - MAX < (rs.drop MAX).length by simp; omega)]
          rw [← hgetd, List.getD_eq_getElem?_getD, List.getElem?_eq_getElem
            (show n - MAX < (rs.drop MAX).length by simp; omega)]
          rfl
        simp only [hminA, hminA2, hdtake]
        by_cases h0 : n - MAX = 0
        · have hnm : n = MAX := by omega
          rw [if_pos h0, h0]
          simp
        · rw [if_neg h0]

/-- C3: the k-th `add_breadcrumb` call (0-indexed from a freshly started
backend, where the counter equals the number of calls made) targets file A
when k mod (2 * MAX) < MAX and file B otherwise, and overwrites its target
with the single serialized record iff k mod MAX = 0, appending otherwise;
consequently after 2 * MAX + 1 successful calls file A holds exactly 1 record
(the last one) and file B exactly MAX records. -/
theorem claim_C3_breadcrumb_rotation (MAX : Nat) (rs : List Nat) (hM : 0 < MAX)
    (hlen : rs.length = 2 * MAX + 1) :
    (∀ (s : BcState) (r : Nat), s.hasFiles = true →
      ((s.num_breadcrumbs % (MAX * 2) < MAX →
          (sentry__crashpad_backend_add_breadcrumb MAX s (some r)
              true).state.fileA
            = (if s.num_breadcrumbs % MAX = 0 then [r] else s.fileA ++ [r]) ∧
          (sentry__crashpad_backend_add_breadcrumb MAX s (some r)
              true).state.fileB = s.fileB) ∧
       (¬ s.num_breadcrumbs % (MAX * 2) < MAX →
          (sentry__crashpad_backend_add_breadcrumb MAX s (some r)
              true).state.fileB
            = (if s.num_breadcrumbs % MAX = 0 then [r] else s.fileB ++ [r]) ∧
          (sentry__crashpad_backend_add_breadcrumb MAX s (some r)
              true).state.fileA = s.fileA))) ∧
    (runBreadcrumbs MAX freshBcState rs).fileA = rs.drop (2 * MAX) ∧
    (runBreadcrumbs MAX freshBcState rs).fileB = (rs.drop MAX).take MAX ∧
    (runBreadcrumbs MAX freshBcState rs).fileA.length = 1 ∧
    (runBreadcrumbs MAX freshBcState rs).fileB.length = MAX := by
  have hpart1 : ∀ (s : BcState) (r : Nat), s.hasFiles = true →
      ((s.num_breadcrumbs % (MAX * 2) < MAX →
          (sentry__crashpad_backend_add_breadcrumb MAX s (some r)
              true).state.fileA
            = (if s.num_breadcrumbs % MAX = 0 then [r] else s.fileA ++ [r]) ∧
          (sentry__crashpad_backend_add_breadcrumb MAX s (some r)
              true).state.fileB = s.fileB) ∧
       (¬ s.num_breadcrumbs % (MAX * 2) < MAX →
          (sentry__crashpad_backend_add_breadcrumb MAX s (some r)
              true).state.fileB
            = (if s.num_breadcrumbs % MAX = 0 then [r] else s.fileB ++ [r]) ∧
          (sentry__crashpad_backend_add_breadcrumb MAX s (some r)
              true).state.fileA = s.fileA)) := by
    intro s r h
    rw [add_breadcrumb_success MAX s r h]
    constructor
    · intro hlt
      rw [if_pos hlt]
      exact ⟨rfl, rfl⟩
    · intro hlt
      rw [if_neg hlt]
      exact ⟨rfl, rfl⟩
  have hchar := runBreadcrumbs_characterization MAX rs (2 * MAX) (by omega)
    (by omega)
  have h2lt : 2 * MAX < rs.length := by omega
  have hfull : rs.take (2 * MAX + 1) = rs := by
    rw [← hlen, List.take_length]
  have htake : rs.take (2 * MAX + 1)
      = rs.take (2 * MAX) ++ [rs.getD (2 * MAX) 0] := by
    rw [List.take_succ, List.getElem?_eq_getElem h2lt]
    rw [List.getD_eq_getElem?_getD, List.getElem?_eq_getElem h2lt]
    rfl
  have hstep : runBreadcrumbs MAX freshBcState rs
      = (sentry__crashpad_backend_add_breadcrumb MAX
          (runBreadcrumbs MAX freshBcState (rs.take (2 * MAX)))
          (some (rs.getD (2 * MAX) 0)) true).state := by
    conv_lhs => rw [← hfull, htake]
    rw [runBreadcrumbs, List.foldl_append]
    rfl
  have hmod1 : 2 * MAX % (MAX * 2) = 0 := by
    rw [Nat.mul_comm MAX 2, Nat.mod_self]
  have hmod2 : 2 * MAX % MAX = 0 := by
    rw [Nat.mul_comm 2 MAX]
    exact Nat.mul_mod_right MAX 2
  have hdrop : rs.drop (2 * MAX) = [rs.getD (2 * MAX) 0] := by
    rw [List.getD_eq_getElem?_getD, List.getElem?_eq_getElem h2lt]
    rw [List.drop_eq_getElem_cons h2lt]
    rw [List.drop_eq_nil_of_le (by omega)]
    rfl
  rw [hstep, hchar, add_breadcrumb_success MAX _ _ rfl]
  simp only [hmod1, hmod2]
  rw [if_pos hM]
  simp only [if_true]
  have hsubB : 2 * MAX - MAX = MAX := by omega
  refine ⟨hpart1, ?_, ?_, ?_, ?_⟩
  · show [rs.getD (2 * MAX) 0] = rs.drop (2 * MAX)
    rw [hdrop]
  · show List.take (2 * MAX - MAX) (rs.drop MAX) = List.take MAX (rs.drop MAX)
    rw [hsubB]
  · rfl
  · show (List.take (2 * MAX - MAX) (rs.drop MAX)).length = MAX
    rw [hsubB]
    simp
    omega

theorem claim_C3_breadcrumb_rotation_witness :
    (0 < 2 ∧ ([10, 11, 12, 13, 14] : List Nat).length = 2 * 2 + 1) ∧
    (runBreadcrumbs 2 freshBcState [10, 11, 12, 13, 14]).fileA.length = 1 ∧
    (runBreadcrumbs 2 freshBcState [10, 11, 12, 13, 14]).fileB.length = 2 :=
  ⟨⟨by decide, by decide⟩,
   (claim_C3_breadcrumb_rotation 2 [10, 11, 12, 13, 14] (by decide)
      (by decide)).2.2.2⟩

/-- C7: every `add_breadcrumb` call advances the counter by exactly one, on
the missing-file path, the serialization-failure path and the write-failure
path alike, so after any sequence of calls the counter equals the initial
counter plus the number of calls, independent of I/O outcomes — the rotation
schedule depends only on the number of calls made. -/
theorem claim_C7_counter_always_advances (MAX : Nat) (s : BcState)
    (mpack : Option Nat) (writeOk : Bool) :
    (sentry__crashpad_backend_add_breadcrumb MAX s mpack
        writeOk).state.num_breadcrumbs = s.num_breadcrumbs + 1 ∧
    ∀ calls : List (Option Nat × Bool),
      (runBreadcrumbsOutcomes MAX s calls).num_breadcrumbs
        = s.num_breadcrumbs + calls.length := by
  refine ⟨add_breadcrumb_num MAX s mpack writeOk, ?_⟩
  intro calls
  induction calls generalizing s with
  | nil => simp [runBreadcrumbsOutcomes]
  | cons c rest ih =>
      have hsplit : runBreadcrumbsOutcomes MAX s (c :: rest)
          = runBreadcrumbsOutcomes MAX
              (sentry__crashpad_backend_add_breadcrumb MAX s c.1 c.2).state
              rest := by
        rw [runBreadcrumbsOutcomes, List.foldl_cons]
        rfl
      rw [hsplit, ih, add_breadcrumb_num]
      simp
      omega

/-- C8: evidence for the ownership claim.  On the path where the breadcrumb
file path is NULL (startup never ran or bailed out early) the function
returns before reaching `sentry_value_decref`, so the reference of the caller
is NOT consumed — contradicting the claim that it is consumed on every path.
On the serialization-failure and write-failure paths (and on success) the
reference is consumed. -/
theorem claim_C8_breadcrumb_ownership :
    (sentry__crashpad_backend_add_breadcrumb 100
        { num_breadcrumbs := 0, hasFiles := false, fileA := [], fileB := [] }
        (some 42) true).consumed = false ∧
    (sentry__crashpad_backend_add_breadcrumb 100 freshBcState (some 42)
        true).consumed = true ∧
    (sentry__crashpad_backend_add_breadcrumb 100 freshBcState none
        true).consumed = true ∧
    (sentry__crashpad_backend_add_breadcrumb 100 freshBcState (some 42)
        false).consumed = true :=
  ⟨rfl, rfl, rfl, rfl⟩

/-- C6 counterexample: on POSIX, after `startup` (with all prior dispositions
default) and no third-party tampering, `shutdown` leaves the handler this
backend installed (slot 5, SIGSEGV) in place instead of restoring the prior
default — the claim that shutdown restores the prior handler whenever the
installed one is still ours fails on the POSIX backend. -/
theorem claim_C6_counterexample :
    shutdown_inproc_posix (startup_inproc_posix (fun _ => Disposition.dfl)).2 5
      = Disposition.handler3 0 ∧
    Disposition.handler3 0 ≠ Disposition.dfl :=
  ⟨rfl, by decide⟩

/-- C6 (amended): on the structural-exception platform, `shutdown` (of either
backend — both share the logic verbatim) restores the prior top-level filter
iff the currently installed filter is still the one the backend installed,
and leaves a third-party filter installed otherwise; on POSIX, `shutdown`
releases only the alternate signal stack and leaves the OS handler table
entirely unchanged (so it never clobbers a third-party handler, but also does
not restore the prior ones). -/
theorem claim_C6_shutdown_restore (gPrevious : TopFilter) :
    shutdown_win gPrevious .sentryFilter = gPrevious ∧
    (∀ t : TopFilter, t ≠ .sentryFilter → shutdown_win gPrevious t = t) ∧
    (∀ os : Nat → Disposition, shutdown_inproc_posix os = os) := by
  refine ⟨rfl, ?_, fun _ => rfl⟩
  intro t ht
  rw [shutdown_win]
  simp [ht]

theorem claim_C6_shutdown_restore_witness :
    TopFilter.ext 9 ≠ TopFilter.sentryFilter ∧
    shutdown_win (.ext 7) (.ext 9) = .ext 9 :=
  ⟨by decide, (claim_C6_shutdown_restore (.ext 7)).2.1 (.ext 9) (by decide)⟩

end SentryNative
